import Mathlib

/-!
A shallow embedding of the aiothrift `ThriftConnection` client
(`src/aiothrift/connection.py`).

The connection state carries the `closed` flag, the `_seqid` counter, the
configured timeout, a log of frames written to the transport (`sent`,
abstracting the bytes produced by `write_message_begin` / `args.write` /
`write_message_end`), and the stream of decoded responses available on the
read side (`inbox`, abstracting what `read_message_begin` / `read_struct`
would decode).  `execute` and `recv` are translated statement by statement
from `ThriftConnection.execute` and `ThriftConnection._recv`; raising an
exception is modelled by returning an `Outcome` other than `Outcome.ok`.
-/

/-- A Python value as it appears in argument and result structs: `None`,
an int, a string, or an exception object (a thrift exception instance,
carrying a kind and a message). -/
inductive PyVal where
  | none
  | int (n : Int)
  | str (s : String)
  | exc (kind : Nat) (msg : String)
  deriving DecidableEq, Repr

/-- Python truthiness, used by the `if k != 'success' and v:` scan in
`_recv` (connection.py line 150): `None`, `0` and `""` are falsy, every
exception object is truthy. -/
def PyVal.truthy : PyVal → Bool
  | PyVal.none => false
  | PyVal.int n => n != 0
  | PyVal.str s => s != ""
  | PyVal.exc _ _ => true

namespace TMessageType

/-- `thriftpy.thrift.TMessageType.CALL`. -/
def CALL : Nat := 1

/-- `thriftpy.thrift.TMessageType.REPLY`. -/
def REPLY : Nat := 2

/-- `thriftpy.thrift.TMessageType.EXCEPTION`. -/
def EXCEPTION : Nat := 3

end TMessageType

namespace TApplicationException

/-- `thriftpy.thrift.TApplicationException.BAD_SEQUENCE_ID`. -/
def BAD_SEQUENCE_ID : Nat := 4

/-- `thriftpy.thrift.TApplicationException.MISSING_RESULT`. -/
def MISSING_RESULT : Nat := 5

end TApplicationException

/-- One method of the service descriptor: the argument struct's field
names in declared order (`api + "_args"`'s thrift_spec), the result
struct's field names in declared order (`api + "_result"`'s thrift_spec,
containing `"success"` when the method returns a value), and the
`oneway` flag on the result class. -/
structure MethodSchema where
  argFields : List String
  resultFields : List String
  oneway : Bool
  deriving DecidableEq, Repr

/-- The service descriptor: a mapping from api name to its schema.
`getattr(self.service, api + "_args")` succeeds exactly when the api
name is present. -/
structure Service where
  methods : List (String × MethodSchema)
  deriving DecidableEq, Repr

/-- Look an api name up in the service descriptor; `Option.none` models
`getattr` raising `AttributeError`. -/
def Service.find? (s : Service) (api : String) : Option MethodSchema :=
  (s.methods.find? (fun p => p.1 == api)).map Prod.snd

/-- One decoded response frame on the read side: the header triple
returned by `read_message_begin`, the decoded `TApplicationException`
body (used when `mtype` is EXCEPTION), and the decoded result-struct
field values in declared field order (used otherwise; a field the peer
did not populate decodes to `PyVal.none`). -/
structure Response where
  fname : String
  mtype : Nat
  rseqid : Nat
  exnKind : Nat
  exnMsg : String
  resultVals : List PyVal
  deriving DecidableEq, Repr

/-- One request frame written to the transport: the
`write_message_begin(api, TMessageType.CALL, seqid)` header plus the
argument struct serialized by `args.write(self._oprot)`. -/
structure Frame where
  api : String
  mtype : Nat
  seqid : Nat
  argStruct : List (String × PyVal)
  deriving DecidableEq, Repr

/-- The connection state (`ThriftConnection.__init__`, connection.py
lines 44-55): the `closed` flag, the `_seqid` counter, the configured
`timeout`, the write log of the transport, and the decoded responses
available to the reader. -/
structure ThriftConnection where
  closed : Bool
  seqid : Nat
  timeout : Option Nat
  sent : List Frame
  inbox : List Response
  deriving DecidableEq, Repr

/-- A freshly constructed connection: `closed = False`, `_seqid = 0`,
nothing written yet; the peer responses it will read are `inbox`. -/
def ThriftConnection.start (timeout : Option Nat) (inbox : List Response) :
    ThriftConnection :=
  { closed := false, seqid := 0, timeout := timeout, sent := [], inbox := inbox }

/-- How each call resolves: a returned value, or one of the exceptions
`execute` can raise (`ConnectionClosedError`, `asyncio.TimeoutError`,
`TApplicationException`, a declared business exception raised by
`raise v`, or `AttributeError` from a failed `getattr`). -/
inductive Outcome where
  | ok (v : PyVal)
  | connectionClosedError (msg : String)
  | timeoutError
  | applicationError (kind : Nat) (msg : String)
  | declaredError (v : PyVal)
  | attributeError (name : String)
  deriving DecidableEq, Repr

/-- `dict` lookup on an association list (first binding wins, as Python
dict keys are unique). -/
def dictGet? (d : List (String × PyVal)) (k : String) : Option PyVal :=
  (d.find? (fun p => p.1 == k)).map Prod.snd

/-- `d[k] = v` on an association list: replace the value in place when
the key is present, append otherwise (Python dicts keep insertion
order). -/
def dictSet (d : List (String × PyVal)) (k : String) (v : PyVal) :
    List (String × PyVal) :=
  if (d.find? (fun p => p.1 == k)).isSome then
    d.map (fun p => if p.1 == k then (p.1, v) else p)
  else
    d ++ [(k, v)]

/-- `d.update(kw)`: assign every binding of `kw` into `d`, so values
from `kw` overwrite values already in `d` (connection.py line 95). -/
def dictUpdate (d kw : List (String × PyVal)) : List (String × PyVal) :=
  kw.foldl (fun acc p => dictSet acc p.1 p.2) d

/-- Modelled from the spec: `args2kwargs` is defined in
`aiothrift/util.py`, which is not among the available sources; per the
spec it maps the caller's positional values onto named argument fields
using the schema's declared field order (`dict(zip(names, args))`,
truncating at the shorter list). -/
def args2kwargs (argFields : List String) (args : List PyVal) :
    List (String × PyVal) :=
  argFields.zip args

/-- The argument struct as serialized on the wire: every declared
argument field paired with the value assigned by the
`for k, v in kwargs.items(): setattr(args, k, v)` loop, defaulting to
`None` (connection.py lines 100-103). -/
def buildArgStruct (argFields : List String) (kwargs : List (String × PyVal)) :
    List (String × PyVal) :=
  argFields.map (fun n => (n, (dictGet? kwargs n).getD PyVal.none))

/-- The result struct as decoded by `read_struct(result)`: every field
of the result thrift_spec in declared order, paired with the decoded
value, `None` for fields the peer did not populate. -/
def decodeResult (resultFields : List String) (vals : List PyVal) :
    List (String × PyVal) :=
  resultFields.zip (vals ++ List.replicate resultFields.length PyVal.none)

/-- Connection.py lines 144-153, reached once `result.success` is absent
or `None`: the void-api early return, the declared-throws scan in
`__dict__` (declared) order, and the final `MISSING_RESULT` check. -/
def resolveAfterSuccess (result : List (String × PyVal)) : Outcome :=
  if result.length = 0 then
    Outcome.ok PyVal.none
  else
    match result.find? (fun p => p.1 != "success" && p.2.truthy) with
    | some p => Outcome.declaredError p.2
    | Option.none =>
      if result.any (fun p => p.1 == "success") then
        Outcome.applicationError TApplicationException.MISSING_RESULT ""
      else
        Outcome.ok PyVal.none

/-- Connection.py lines 141-153: return `result.success` when it is
populated, otherwise fall through to `resolveAfterSuccess`. -/
def resolveResult (result : List (String × PyVal)) : Outcome :=
  match dictGet? result "success" with
  | some v => if v != PyVal.none then Outcome.ok v else resolveAfterSuccess result
  | Option.none => resolveAfterSuccess result

/-- `ThriftConnection._recv` (connection.py lines 120-153): read the
response header; on a sequence-id mismatch close the connection and
raise `TApplicationException(BAD_SEQUENCE_ID)`; on an EXCEPTION message
raise the decoded application exception; otherwise decode the result
struct and resolve it.  An exhausted read side models the peer having
closed the stream: `read_message_begin` raises
`asyncio.IncompleteReadError`, which `execute` turns into `close()` plus
`ConnectionClosedError` (connection.py lines 116-118). -/
def ThriftConnection.recv (service : Service) (conn : ThriftConnection)
    (api : String) : ThriftConnection × Outcome :=
  match conn.inbox with
  | [] =>
    ({ conn with closed := true },
     Outcome.connectionClosedError "Server connection has closed")
  | r :: rest =>
    let conn1 : ThriftConnection := { conn with inbox := rest }
    if r.rseqid ≠ conn1.seqid then
      ({ conn1 with closed := true },
       Outcome.applicationError TApplicationException.BAD_SEQUENCE_ID
         (r.fname ++ " failed: out of sequence response"))
    else if r.mtype = TMessageType.EXCEPTION then
      (conn1, Outcome.applicationError r.exnKind r.exnMsg)
    else
      match Service.find? service api with
      | some schema =>
        (conn1, resolveResult (decodeResult schema.resultFields r.resultVals))
      | Option.none => (conn1, Outcome.attributeError (api ++ "_result"))

/-- Whether the `async_timeout.timeout(self.timeout)` scope expires
during this call; `async_timeout.timeout(None)` never expires. -/
structure Env where
  timesOut : Bool
  deriving DecidableEq, Repr

/-- `ThriftConnection.execute` (connection.py lines 75-118): fail fast
with `ConnectionClosedError` when already closed; resolve the method's
argument and result schemas (`AttributeError` when the api name is not
declared); map positional values onto argument fields and let
`kwargs.update(kw)` overwrite keyword values with them; increment
`_seqid`; write and drain the request frame; on a timeout close and
raise `asyncio.TimeoutError`; for a oneway method return `None` without
reading; otherwise receive and resolve the response. -/
def ThriftConnection.execute (service : Service) (conn : ThriftConnection)
    (api : String) (args : List PyVal) (kwargs : List (String × PyVal))
    (env : Env) : ThriftConnection × Outcome :=
  if conn.closed then
    (conn, Outcome.connectionClosedError "Connection closed")
  else
    match Service.find? service api with
    | Option.none => (conn, Outcome.attributeError (api ++ "_args"))
    | some schema =>
      let kw := args2kwargs schema.argFields args
      let kwargs1 := dictUpdate kwargs kw
      let conn1 : ThriftConnection := { conn with seqid := conn.seqid + 1 }
      let frame : Frame :=
        { api := api, mtype := TMessageType.CALL, seqid := conn1.seqid,
          argStruct := buildArgStruct schema.argFields kwargs1 }
      let conn2 : ThriftConnection := { conn1 with sent := conn1.sent ++ [frame] }
      if conn2.timeout.isSome && env.timesOut then
        ({ conn2 with closed := true }, Outcome.timeoutError)
      else if schema.oneway then
        (conn2, Outcome.ok PyVal.none)
      else
        ThriftConnection.recv service conn2 api

/-! ### Concrete fixtures for witnesses and counterexamples -/

/-- A two-argument method returning a value and declaring one exception
field `"ouch"`. -/
def demoSchema : MethodSchema :=
  { argFields := ["x", "y"], resultFields := ["success", "ouch"], oneway := false }

/-- A oneway (fire-and-forget) method. -/
def onewaySchema : MethodSchema :=
  { argFields := [], resultFields := [], oneway := true }

/-- A service declaring `ping` (request/response) and `fire` (oneway). -/
def demoService : Service :=
  { methods := [("ping", demoSchema), ("fire", onewaySchema)] }

/-- A response whose header carries sequence id 7, never matching a
first call's assigned id 1. -/
def badSeqResp : Response :=
  { fname := "ping", mtype := TMessageType.REPLY, rseqid := 7, exnKind := 0,
    exnMsg := "", resultVals := [PyVal.int 1] }

/-! ### Claims -/

/-- C1: a call whose response header carries a sequence id different
from the id assigned to that call closes the connection (`closed`
becomes true) and fails with
`TApplicationException(BAD_SEQUENCE_ID)`. -/
theorem C1_bad_sequence_id_closes
    (service : Service) (conn : ThriftConnection) (api : String)
    (args : List PyVal) (kwargs : List (String × PyVal)) (env : Env)
    (schema : MethodSchema) (r : Response) (rest : List Response)
    (hopen : conn.closed = false)
    (hfind : Service.find? service api = some schema)
    (hnoto : env.timesOut = false)
    (hone : schema.oneway = false)
    (hinbox : conn.inbox = r :: rest)
    (hbad : r.rseqid ≠ conn.seqid + 1) :
    (ThriftConnection.execute service conn api args kwargs env).1.closed = true ∧
    (ThriftConnection.execute service conn api args kwargs env).2 =
      Outcome.applicationError TApplicationException.BAD_SEQUENCE_ID
        (r.fname ++ " failed: out of sequence response") := by
  simp [ThriftConnection.execute, ThriftConnection.recv, hfind, hopen, hnoto,
    hone, hinbox, hbad]

/-- Witness for C1 at a concrete input: a first call on a fresh
connection is assigned sequence id 1, and a response tagged 7 closes the
connection with `BAD_SEQUENCE_ID`. -/
theorem C1_bad_sequence_id_closes_witness :
    (ThriftConnection.execute demoService
        (ThriftConnection.start Option.none [badSeqResp]) "ping" [] []
        ⟨false⟩).1.closed = true ∧
    (ThriftConnection.execute demoService
        (ThriftConnection.start Option.none [badSeqResp]) "ping" [] []
        ⟨false⟩).2 =
      Outcome.applicationError TApplicationException.BAD_SEQUENCE_ID
        ("ping" ++ " failed: out of sequence response") :=
  C1_bad_sequence_id_closes demoService
    (ThriftConnection.start Option.none [badSeqResp]) "ping" [] [] ⟨false⟩
    demoSchema badSeqResp [] rfl rfl rfl rfl rfl (by decide)

/-- C5: once `closed` is true, `execute` fails immediately with
`ConnectionClosedError`, leaves the connection state untouched (so the
sequence counter is unchanged and the write log gains no frame — no I/O
is attempted and zero bytes are written). -/
theorem C5_closed_connection_fails_fast
    (service : Service) (conn : ThriftConnection) (api : String)
    (args : List PyVal) (kwargs : List (String × PyVal)) (env : Env)
    (hclosed : conn.closed = true) :
    ThriftConnection.execute service conn api args kwargs env =
      (conn, Outcome.connectionClosedError "Connection closed") := by
  simp [ThriftConnection.execute, hclosed]

/-- Witness for C5 at a concrete input: a closed connection rejects a
call without any state change. -/
theorem C5_closed_connection_fails_fast_witness :
    ThriftConnection.execute demoService
        { ThriftConnection.start Option.none [] with closed := true }
        "ping" [] [] ⟨false⟩ =
      ({ ThriftConnection.start Option.none [] with closed := true },
       Outcome.connectionClosedError "Connection closed") :=
  C5_closed_connection_fails_fast demoService
    { ThriftConnection.start Option.none [] with closed := true }
    "ping" [] [] ⟨false⟩ rfl

/-- C10: a call with a method name absent from the service descriptor
fails with `AttributeError` on `api + "_args"` and leaves the connection
state untouched: no frame is written, the sequence counter is not
incremented, and the connection stays open. -/
theorem C10_unknown_api_attribute_error
    (service : Service) (conn : ThriftConnection) (api : String)
    (args : List PyVal) (kwargs : List (String × PyVal)) (env : Env)
    (hopen : conn.closed = false)
    (hmiss : Service.find? service api = Option.none) :
    ThriftConnection.execute service conn api args kwargs env =
      (conn, Outcome.attributeError (api ++ "_args")) := by
  simp [ThriftConnection.execute, hopen, hmiss]

/-- Witness for C10 at a concrete input: calling undeclared `nope` on an
open connection raises `AttributeError` with no state change. -/
theorem C10_unknown_api_attribute_error_witness :
    ThriftConnection.execute demoService
        (ThriftConnection.start Option.none []) "nope" [] [] ⟨false⟩ =
      (ThriftConnection.start Option.none [],
       Outcome.attributeError ("nope" ++ "_args")) :=
  C10_unknown_api_attribute_error demoService
    (ThriftConnection.start Option.none []) "nope" [] [] ⟨false⟩ rfl rfl

/-- A response carrying an EXCEPTION message with a decoded
`TApplicationException(kind 6, "boom")`, correctly tagged for a first
call. -/
def excResp : Response :=
  { fname := "ping", mtype := TMessageType.EXCEPTION, rseqid := 1, exnKind := 6,
    exnMsg := "boom", resultVals := [] }

/-- C4 counterexample: an EXCEPTION response with a matching sequence id
makes the call raise the decoded application exception, but the
connection is NOT closed — `closed` stays false, refuting the claim that
the connection is closed as a side effect. -/
theorem C4_counterexample :
    (ThriftConnection.execute demoService
        (ThriftConnection.start Option.none [excResp]) "ping" [] []
        ⟨false⟩).2 = Outcome.applicationError 6 "boom" ∧
    (ThriftConnection.execute demoService
        (ThriftConnection.start Option.none [excResp]) "ping" [] []
        ⟨false⟩).1.closed = false := by
  decide

/-- C4 amended: a call whose response header has message kind EXCEPTION
raises the generic application-exception struct decoded from the body,
and the connection remains open (`closed` stays false) — `_recv` raises
without calling `close()` and `execute` does not catch
`TApplicationException`. -/
theorem C4_exception_message_raises_open
    (service : Service) (conn : ThriftConnection) (api : String)
    (args : List PyVal) (kwargs : List (String × PyVal)) (env : Env)
    (schema : MethodSchema) (r : Response) (rest : List Response)
    (hopen : conn.closed = false)
    (hfind : Service.find? service api = some schema)
    (hnoto : env.timesOut = false)
    (hone : schema.oneway = false)
    (hinbox : conn.inbox = r :: rest)
    (hseq : r.rseqid = conn.seqid + 1)
    (hm : r.mtype = TMessageType.EXCEPTION) :
    (ThriftConnection.execute service conn api args kwargs env).2 =
      Outcome.applicationError r.exnKind r.exnMsg ∧
    (ThriftConnection.execute service conn api args kwargs env).1.closed = false := by
  simp [ThriftConnection.execute, ThriftConnection.recv, hopen, hfind, hnoto,
    hone, hinbox, hseq, hm]

/-- Witness for the amended C4 at a concrete input. -/
theorem C4_exception_message_raises_open_witness :
    (ThriftConnection.execute demoService
        (ThriftConnection.start Option.none [excResp]) "ping" [] []
        ⟨false⟩).2 = Outcome.applicationError excResp.exnKind excResp.exnMsg ∧
    (ThriftConnection.execute demoService
        (ThriftConnection.start Option.none [excResp]) "ping" [] []
        ⟨false⟩).1.closed = false :=
  C4_exception_message_raises_open demoService
    (ThriftConnection.start Option.none [excResp]) "ping" [] [] ⟨false⟩
    demoSchema excResp [] rfl rfl rfl rfl rfl rfl rfl

/-- C7: a call to a oneway method resolves successfully with no return
value immediately after the request frame is flushed: exactly one frame
is written, the read side is never consumed (even when a response is
available), and the connection stays open. -/
theorem C7_oneway_never_reads
    (service : Service) (conn : ThriftConnection) (api : String)
    (args : List PyVal) (kwargs : List (String × PyVal)) (env : Env)
    (schema : MethodSchema)
    (hopen : conn.closed = false)
    (hfind : Service.find? service api = some schema)
    (hnoto : env.timesOut = false)
    (hone : schema.oneway = true) :
    (ThriftConnection.execute service conn api args kwargs env).2 =
      Outcome.ok PyVal.none ∧
    (ThriftConnection.execute service conn api args kwargs env).1.inbox =
      conn.inbox ∧
    (ThriftConnection.execute service conn api args kwargs env).1.closed = false ∧
    (ThriftConnection.execute service conn api args kwargs env).1.sent.length =
      conn.sent.length + 1 := by
  simp [ThriftConnection.execute, hopen, hfind, hnoto, hone]

/-- Witness for C7 at a concrete input: calling oneway `fire` while the
peer has already sent a response leaves that response unread. -/
theorem C7_oneway_never_reads_witness :
    (ThriftConnection.execute demoService
        (ThriftConnection.start Option.none [badSeqResp]) "fire" [] []
        ⟨false⟩).2 = Outcome.ok PyVal.none ∧
    (ThriftConnection.execute demoService
        (ThriftConnection.start Option.none [badSeqResp]) "fire" [] []
        ⟨false⟩).1.inbox = (ThriftConnection.start Option.none [badSeqResp]).inbox ∧
    (ThriftConnection.execute demoService
        (ThriftConnection.start Option.none [badSeqResp]) "fire" [] []
        ⟨false⟩).1.closed = false ∧
    (ThriftConnection.execute demoService
        (ThriftConnection.start Option.none [badSeqResp]) "fire" [] []
        ⟨false⟩).1.sent.length =
      (ThriftConnection.start Option.none [badSeqResp]).sent.length + 1 :=
  C7_oneway_never_reads demoService
    (ThriftConnection.start Option.none [badSeqResp]) "fire" [] [] ⟨false⟩
    onewaySchema rfl rfl rfl rfl

/-- C8: when the timeout scope of a call on a connection with a
configured timeout expires, the call fails with `asyncio.TimeoutError`
and the connection transitions to closed; any subsequent call on that
connection fails with `ConnectionClosedError` while leaving the state
untouched (no I/O, zero bytes written). -/
theorem C8_timeout_closes_connection
    (service : Service) (conn : ThriftConnection) (api : String)
    (args : List PyVal) (kwargs : List (String × PyVal)) (env : Env)
    (schema : MethodSchema) (t : Nat) (api2 : String) (args2 : List PyVal)
    (kwargs2 : List (String × PyVal)) (env2 : Env)
    (hopen : conn.closed = false)
    (hfind : Service.find? service api = some schema)
    (ht : conn.timeout = some t)
    (hto : env.timesOut = true) :
    (ThriftConnection.execute service conn api args kwargs env).2 =
      Outcome.timeoutError ∧
    (ThriftConnection.execute service conn api args kwargs env).1.closed = true ∧
    ThriftConnection.execute service
        (ThriftConnection.execute service conn api args kwargs env).1
        api2 args2 kwargs2 env2 =
      ((ThriftConnection.execute service conn api args kwargs env).1,
       Outcome.connectionClosedError "Connection closed") := by
  simp [ThriftConnection.execute, hopen, hfind, ht, hto]

/-- Witness for C8 at a concrete input: a timed-out first call, then a
rejected second call. -/
theorem C8_timeout_closes_connection_witness :
    (ThriftConnection.execute demoService
        (ThriftConnection.start (some 5) []) "ping" [] [] ⟨true⟩).2 =
      Outcome.timeoutError ∧
    (ThriftConnection.execute demoService
        (ThriftConnection.start (some 5) []) "ping" [] [] ⟨true⟩).1.closed = true ∧
    ThriftConnection.execute demoService
        (ThriftConnection.execute demoService
          (ThriftConnection.start (some 5) []) "ping" [] [] ⟨true⟩).1
        "ping" [] [] ⟨false⟩ =
      ((ThriftConnection.execute demoService
          (ThriftConnection.start (some 5) []) "ping" [] [] ⟨true⟩).1,
       Outcome.connectionClosedError "Connection closed") :=
  C8_timeout_closes_connection demoService
    (ThriftConnection.start (some 5) []) "ping" [] [] ⟨true⟩ demoSchema 5
    "ping" [] [] ⟨false⟩ rfl rfl rfl rfl

/-- A REPLY for a first call whose result struct has no field populated,
against a schema that declares a success field. -/
def emptyResultResp : Response :=
  { fname := "ping", mtype := TMessageType.REPLY, rseqid := 1, exnKind := 0,
    exnMsg := "", resultVals := [] }

/-- C2 counterexample: a result struct declaring `success` with neither
`success` nor any exception field populated raises
`TApplicationException(MISSING_RESULT)`, but the connection is NOT
closed — `closed` stays false, refuting the claim that the connection is
closed. -/
theorem C2_counterexample :
    (ThriftConnection.execute demoService
        (ThriftConnection.start Option.none [emptyResultResp]) "ping" [] []
        ⟨false⟩).2 =
      Outcome.applicationError TApplicationException.MISSING_RESULT "" ∧
    (ThriftConnection.execute demoService
        (ThriftConnection.start Option.none [emptyResultResp]) "ping" [] []
        ⟨false⟩).1.closed = false := by
  decide

/-- C2 amended: a result schema declaring a success field, where neither
success nor any exception field is populated, fails the call with
`TApplicationException(MISSING_RESULT)` and the connection remains open
(`closed` stays false) — `_recv` raises without `close()` and `execute`
does not catch `TApplicationException`. -/
theorem C2_missing_result_leaves_open
    (service : Service) (conn : ThriftConnection) (api : String)
    (args : List PyVal) (kwargs : List (String × PyVal)) (env : Env)
    (schema : MethodSchema) (r : Response) (rest : List Response)
    (hopen : conn.closed = false)
    (hfind : Service.find? service api = some schema)
    (hnoto : env.timesOut = false)
    (hone : schema.oneway = false)
    (hinbox : conn.inbox = r :: rest)
    (hseq : r.rseqid = conn.seqid + 1)
    (hm : r.mtype = TMessageType.REPLY)
    (hsucc : dictGet? (decodeResult schema.resultFields r.resultVals) "success" =
      some PyVal.none)
    (hnoexc : (decodeResult schema.resultFields r.resultVals).find?
      (fun p => p.1 != "success" && p.2.truthy) = Option.none) :
    (ThriftConnection.execute service conn api args kwargs env).2 =
      Outcome.applicationError TApplicationException.MISSING_RESULT "" ∧
    (ThriftConnection.execute service conn api args kwargs env).1.closed = false := by
  have hne : decodeResult schema.resultFields r.resultVals ≠ [] := by
    intro h
    rw [h] at hsucc
    simp [dictGet?] at hsucc
  have hany : (decodeResult schema.resultFields r.resultVals).any
      (fun p => p.1 == "success") = true := by
    unfold dictGet? at hsucc
    cases hf : (decodeResult schema.resultFields r.resultVals).find?
        (fun p => p.1 == "success") with
    | none =>
      rw [hf] at hsucc
      simp at hsucc
    | some p =>
      have hpred := List.find?_some hf
      have hmem := List.mem_of_find?_eq_some hf
      exact List.any_eq_true.mpr ⟨p, hmem, hpred⟩
  simp [ThriftConnection.execute, ThriftConnection.recv, resolveResult,
    resolveAfterSuccess, hopen, hfind, hnoto, hone, hinbox, hseq, hm, hsucc,
    hnoexc, hne, hany, TMessageType.REPLY, TMessageType.EXCEPTION]

/-- Witness for the amended C2 at a concrete input. -/
theorem C2_missing_result_leaves_open_witness :
    (ThriftConnection.execute demoService
        (ThriftConnection.start Option.none [emptyResultResp]) "ping" [] []
        ⟨false⟩).2 =
      Outcome.applicationError TApplicationException.MISSING_RESULT "" ∧
    (ThriftConnection.execute demoService
        (ThriftConnection.start Option.none [emptyResultResp]) "ping" [] []
        ⟨false⟩).1.closed = false :=
  C2_missing_result_leaves_open demoService
    (ThriftConnection.start Option.none [emptyResultResp]) "ping" [] []
    ⟨false⟩ demoSchema emptyResultResp [] rfl rfl rfl rfl rfl rfl rfl
    (by decide) (by decide)

/-- A REPLY for a first call whose result struct leaves `success`
unpopulated and populates the declared exception field `ouch`. -/
def declaredExcResp : Response :=
  { fname := "ping", mtype := TMessageType.REPLY, rseqid := 1, exnKind := 0,
    exnMsg := "", resultVals := [PyVal.none, PyVal.exc 1 "boom"] }

/-- C9: when the decoded result struct has `success` unpopulated and at
least one field populated, the first non-success field holding a truthy
value in declared order is raised as-is, and the connection stays
open. -/
theorem C9_declared_exception_raised_open
    (service : Service) (conn : ThriftConnection) (api : String)
    (args : List PyVal) (kwargs : List (String × PyVal)) (env : Env)
    (schema : MethodSchema) (r : Response) (rest : List Response)
    (q : String × PyVal)
    (hopen : conn.closed = false)
    (hfind : Service.find? service api = some schema)
    (hnoto : env.timesOut = false)
    (hone : schema.oneway = false)
    (hinbox : conn.inbox = r :: rest)
    (hseq : r.rseqid = conn.seqid + 1)
    (hm : r.mtype = TMessageType.REPLY)
    (hsucc : dictGet? (decodeResult schema.resultFields r.resultVals) "success" =
        some PyVal.none ∨
      dictGet? (decodeResult schema.resultFields r.resultVals) "success" =
        Option.none)
    (hexc : (decodeResult schema.resultFields r.resultVals).find?
      (fun p => p.1 != "success" && p.2.truthy) = some q) :
    (ThriftConnection.execute service conn api args kwargs env).2 =
      Outcome.declaredError q.2 ∧
    (ThriftConnection.execute service conn api args kwargs env).1.closed = false := by
  have hne : decodeResult schema.resultFields r.resultVals ≠ [] := by
    intro h
    rw [h] at hexc
    simp at hexc
  rcases hsucc with hsucc | hsucc <;>
    simp [ThriftConnection.execute, ThriftConnection.recv, resolveResult,
      resolveAfterSuccess, hopen, hfind, hnoto, hone, hinbox, hseq, hm, hsucc,
      hexc, hne, TMessageType.REPLY, TMessageType.EXCEPTION]

/-- Witness for C9 at a concrete input: the populated `ouch` exception
value is raised as-is and the connection stays open. -/
theorem C9_declared_exception_raised_open_witness :
    (ThriftConnection.execute demoService
        (ThriftConnection.start Option.none [declaredExcResp]) "ping" [] []
        ⟨false⟩).2 = Outcome.declaredError (PyVal.exc 1 "boom") ∧
    (ThriftConnection.execute demoService
        (ThriftConnection.start Option.none [declaredExcResp]) "ping" [] []
        ⟨false⟩).1.closed = false :=
  C9_declared_exception_raised_open demoService
    (ThriftConnection.start Option.none [declaredExcResp]) "ping" [] []
    ⟨false⟩ demoSchema declaredExcResp [] ("ouch", PyVal.exc 1 "boom")
    rfl rfl rfl rfl rfl rfl rfl (Or.inl (by decide)) (by decide)

/-! ### Dictionary lemmas for the argument-mapping claim -/

/-- Replacing the value at key `k` throughout an association list
commutes with looking `k` up. -/
theorem find?_map_set (d : List (String × PyVal)) (k : String) (v : PyVal) :
    (d.map (fun p => if p.1 == k then (p.1, v) else p)).find?
      (fun p => p.1 == k) =
      (d.find? (fun p => p.1 == k)).map (fun p => (p.1, v)) := by
  induction d with
  | nil => rfl
  | cons a d ih =>
    cases h : (a.1 == k) with
    | true =>
      rw [List.map_cons, if_pos h, List.find?_cons, List.find?_cons]
      simp only [h]
      rfl
    | false =>
      have hL : ¬ ((a.1 == k) = true) := by simp [h]
      rw [List.map_cons, if_neg hL, List.find?_cons, List.find?_cons]
      simp only [h]
      exact ih

/-- Replacing the value at key `k` does not disturb lookups of a
different key. -/
theorem find?_map_set_other (d : List (String × PyVal)) (k k' : String)
    (v : PyVal) (hkk : k' ≠ k) :
    (d.map (fun p => if p.1 == k then (p.1, v) else p)).find?
      (fun p => p.1 == k') =
      d.find? (fun p => p.1 == k') := by
  induction d with
  | nil => rfl
  | cons a d ih =>
    cases h : (a.1 == k) with
    | false =>
      have hL : ¬ ((a.1 == k) = true) := by simp [h]
      rw [List.map_cons, if_neg hL, List.find?_cons, List.find?_cons]
      cases h' : (a.1 == k') with
      | false =>
        simp only [h']
        exact ih
      | true =>
        simp only [h']
    | true =>
      have hak : a.1 = k := by simpa using h
      have hne : a.1 ≠ k' := by
        rw [hak]
        exact fun hh => hkk hh.symm
      have h'f : (a.1 == k') = false := beq_eq_false_iff_ne.mpr hne
      rw [List.map_cons, if_pos h, List.find?_cons, List.find?_cons]
      simp only [h'f]
      exact ih

/-- After `d[k] = v`, looking up `k` yields `v`. -/
theorem dictGet_dictSet_self (d : List (String × PyVal)) (k : String)
    (v : PyVal) :
    dictGet? (dictSet d k v) k = some v := by
  unfold dictSet
  by_cases h : (d.find? (fun p => p.1 == k)).isSome
  · rw [if_pos h]
    unfold dictGet?
    rw [find?_map_set]
    cases hf : d.find? (fun p => p.1 == k) with
    | none =>
      rw [hf] at h
      simp at h
    | some p => simp
  · rw [if_neg h]
    unfold dictGet?
    rw [List.find?_append]
    cases hf : d.find? (fun p => p.1 == k) with
    | some p =>
      rw [hf] at h
      simp at h
    | none => simp [List.find?]

/-- After `d[k] = v`, looking up any other key is unchanged. -/
theorem dictGet_dictSet_other (d : List (String × PyVal)) (k k' : String)
    (v : PyVal) (hkk : k' ≠ k) :
    dictGet? (dictSet d k v) k' = dictGet? d k' := by
  unfold dictSet
  by_cases h : (d.find? (fun p => p.1 == k)).isSome
  · rw [if_pos h]
    unfold dictGet?
    rw [find?_map_set_other d k k' v hkk]
  · rw [if_neg h]
    unfold dictGet?
    have hkf : (k == k') = false := beq_eq_false_iff_ne.mpr (Ne.symm hkk)
    rw [List.find?_append]
    simp [List.find?, hkf]

/-- `d.update(kw)` does not disturb keys absent from `kw`. -/
theorem dictGet_dictUpdate_of_none (kw : List (String × PyVal))
    (d : List (String × PyVal)) (k : String)
    (hk : dictGet? kw k = Option.none) :
    dictGet? (dictUpdate d kw) k = dictGet? d k := by
  induction kw generalizing d with
  | nil => rfl
  | cons a kw ih =>
    cases h : (a.1 == k) with
    | true => simp [dictGet?, List.find?, h] at hk
    | false =>
      have hk' : dictGet? kw k = Option.none := by
        simpa [dictGet?, List.find?, h] using hk
      have hne : k ≠ a.1 := by
        intro hh
        simp [hh] at h
      calc dictGet? (dictUpdate d (a :: kw)) k
          = dictGet? (dictUpdate (dictSet d a.1 a.2) kw) k := rfl
        _ = dictGet? (dictSet d a.1 a.2) k := ih _ hk'
        _ = dictGet? d k := dictGet_dictSet_other _ _ _ _ hne

/-- A key absent from an association list is not found. -/
theorem find?_eq_none_of_not_mem_keys (d : List (String × PyVal)) (k : String)
    (hk : k ∉ d.map Prod.fst) :
    d.find? (fun p => p.1 == k) = Option.none := by
  rw [List.find?_eq_none]
  intro p hp hpk
  exact hk (List.mem_map.mpr ⟨p, hp, (by simpa using hpk : p.1 = k)⟩)

/-- The value of `d.update(kw)` at any key, when `kw` has no duplicate
keys: the `kw` binding wins, falling back to `d`. -/
theorem dictGet_dictUpdate (kw : List (String × PyVal))
    (d : List (String × PyVal)) (k : String)
    (hnd : (kw.map Prod.fst).Nodup) :
    dictGet? (dictUpdate d kw) k = (dictGet? kw k).or (dictGet? d k) := by
  induction kw generalizing d with
  | nil => simp [dictUpdate, dictGet?, List.find?]
  | cons a kw ih =>
    have hnotin : a.1 ∉ kw.map Prod.fst := (List.nodup_cons.mp hnd).1
    have hnd' : (kw.map Prod.fst).Nodup := (List.nodup_cons.mp hnd).2
    cases h : (a.1 == k) with
    | true =>
      have hak : a.1 = k := by simpa using h
      have hkwk : dictGet? kw k = Option.none := by
        unfold dictGet?
        rw [find?_eq_none_of_not_mem_keys kw k (hak ▸ hnotin)]
        rfl
      have hhead : dictGet? (a :: kw) k = some a.2 := by
        simp [dictGet?, List.find?, h]
      rw [hhead]
      calc dictGet? (dictUpdate d (a :: kw)) k
          = dictGet? (dictUpdate (dictSet d a.1 a.2) kw) k := rfl
        _ = dictGet? (dictSet d a.1 a.2) k := dictGet_dictUpdate_of_none kw _ k hkwk
        _ = some a.2 := hak ▸ dictGet_dictSet_self d a.1 a.2
        _ = (some a.2).or (dictGet? d k) := rfl
    | false =>
      have hne : k ≠ a.1 := by
        intro hh
        simp [hh] at h
      have hhead : dictGet? (a :: kw) k = dictGet? kw k := by
        simp [dictGet?, List.find?, h]
      rw [hhead]
      calc dictGet? (dictUpdate d (a :: kw)) k
          = dictGet? (dictUpdate (dictSet d a.1 a.2) kw) k := rfl
        _ = (dictGet? kw k).or (dictGet? (dictSet d a.1 a.2) k) :=
            ih (dictSet d a.1 a.2) hnd'
        _ = (dictGet? kw k).or (dictGet? d k) := by
            rw [dictGet_dictSet_other _ _ _ _ hne]

/-- The wire argument struct's value at a declared field is the final
kwargs binding, defaulting to `None`. -/
theorem dictGet_buildArgStruct (argFields : List String)
    (kwargs : List (String × PyVal)) (n : String) (hn : n ∈ argFields) :
    dictGet? (buildArgStruct argFields kwargs) n =
      some ((dictGet? kwargs n).getD PyVal.none) := by
  induction argFields with
  | nil => cases hn
  | cons a l ih =>
    cases h : (a == n) with
    | true =>
      have han : a = n := by simpa using h
      subst han
      rw [buildArgStruct, List.map_cons, dictGet?, List.find?_cons]
      simp
    | false =>
      have hn' : n ∈ l := by
        cases hn with
        | head => simp at h
        | tail _ htl => exact htl
      have := ih hn'
      simpa [buildArgStruct, dictGet?, List.find?, h] using this

/-- The keys of the positional mapping form a sublist of the declared
argument fields. -/
theorem map_fst_zip_sublist (l₁ : List String) (l₂ : List PyVal) :
    ((l₁.zip l₂).map Prod.fst).Sublist l₁ := by
  induction l₁ generalizing l₂ with
  | nil => simp
  | cons a l ih =>
    cases l₂ with
    | nil => simp
    | cons b l₂ => simpa using (ih l₂).cons₂ a

/-- `_recv` never writes: the transport write log is unchanged by
receiving. -/
theorem recv_preserves_sent (service : Service) (c : ThriftConnection)
    (api : String) :
    (ThriftConnection.recv service c api).1.sent = c.sent := by
  cases hc : c.inbox with
  | nil => simp [ThriftConnection.recv, hc]
  | cons r rest =>
    simp only [ThriftConnection.recv, hc]
    split
    · rfl
    · split
      · rfl
      · split <;> rfl

/-- The frame written by a non-fast-failing call: the api name, a CALL
header tagged with the incremented sequence id, and the argument struct
built from the overlaid kwargs. -/
theorem execute_sent (service : Service) (conn : ThriftConnection)
    (api : String) (args : List PyVal) (kwargs : List (String × PyVal))
    (env : Env) (schema : MethodSchema)
    (hopen : conn.closed = false)
    (hfind : Service.find? service api = some schema) :
    (ThriftConnection.execute service conn api args kwargs env).1.sent =
      conn.sent ++
        [{ api := api, mtype := TMessageType.CALL, seqid := conn.seqid + 1,
           argStruct := buildArgStruct schema.argFields
             (dictUpdate kwargs (args2kwargs schema.argFields args)) }] := by
  simp only [ThriftConnection.execute, hfind]
  rw [hopen, if_neg (by simp : ¬ (false = true))]
  split
  · rfl
  · split
    · rfl
    · rw [recv_preserves_sent]

/-- C3 counterexample: field `x` is given both positionally (`1`) and by
keyword (`2`); the frame on the wire carries the positional value `1`,
because `kwargs.update(kw)` lets the positional mapping overwrite the
explicit keyword value — refuting the claim that the keyword value
wins. -/
theorem C3_counterexample :
    ((ThriftConnection.execute demoService (ThriftConnection.start Option.none [])
        "ping" [PyVal.int 1] [("x", PyVal.int 2)] ⟨false⟩).1.sent.map
      Frame.argStruct) = [[("x", PyVal.int 1), ("y", PyVal.none)]] ∧
    PyVal.int 1 ≠ PyVal.int 2 := by
  decide

/-- C3 amended: positional values are mapped onto argument fields in
declared field order, and `kwargs.update(kw)` then overlays the
positional mapping onto the keyword values, so for any field named both
ways the POSITIONAL value wins: whenever the positional mapping binds
field `n` to `v`, the frame written on the wire carries `v` at `n`,
whatever `kwargs` says. -/
theorem C3_positional_overrides_keyword
    (service : Service) (conn : ThriftConnection) (api : String)
    (args : List PyVal) (kwargs : List (String × PyVal)) (env : Env)
    (schema : MethodSchema) (n : String) (v : PyVal)
    (hopen : conn.closed = false)
    (hfind : Service.find? service api = some schema)
    (hnd : schema.argFields.Nodup)
    (hpos : dictGet? (args2kwargs schema.argFields args) n = some v) :
    ∃ f : Frame,
      (ThriftConnection.execute service conn api args kwargs env).1.sent.getLast? =
        some f ∧
      dictGet? f.argStruct n = some v := by
  have hmemzip : n ∈ schema.argFields := by
    unfold dictGet? args2kwargs at hpos
    cases hf : (schema.argFields.zip args).find? (fun p => p.1 == n) with
    | none =>
      rw [hf] at hpos
      simp at hpos
    | some p =>
      have hmem := List.mem_of_find?_eq_some hf
      have hpk : p.1 = n := by simpa using List.find?_some hf
      have hfst := (List.of_mem_zip hmem).1
      rwa [hpk] at hfst
  have hndkw : ((args2kwargs schema.argFields args).map Prod.fst).Nodup :=
    List.Nodup.sublist (map_fst_zip_sublist schema.argFields args) hnd
  refine ⟨{ api := api, mtype := TMessageType.CALL, seqid := conn.seqid + 1,
            argStruct := buildArgStruct schema.argFields
              (dictUpdate kwargs (args2kwargs schema.argFields args)) },
    ?_, ?_⟩
  · rw [execute_sent service conn api args kwargs env schema hopen hfind]
    exact List.getLast?_concat _
  · rw [dictGet_buildArgStruct _ _ _ hmemzip,
      dictGet_dictUpdate _ _ _ hndkw, hpos]
    rfl

/-- Witness for the amended C3 at a concrete input: `x` given both as
positional `1` and keyword `2` ends up as `1` on the wire. -/
theorem C3_positional_overrides_keyword_witness :
    ∃ f : Frame,
      (ThriftConnection.execute demoService (ThriftConnection.start Option.none [])
          "ping" [PyVal.int 1] [("x", PyVal.int 2)] ⟨false⟩).1.sent.getLast? =
        some f ∧
      dictGet? f.argStruct "x" = some (PyVal.int 1) :=
  C3_positional_overrides_keyword demoService (ThriftConnection.start Option.none [])
    "ping" [PyVal.int 1] [("x", PyVal.int 2)] ⟨false⟩ demoSchema "x"
    (PyVal.int 1) rfl rfl (by decide) (by decide)

/-- The REPLY the peer sends to a successful `ping` call tagged `seq`. -/
def okResponse (seq : Nat) : Response :=
  { fname := "ping", mtype := TMessageType.REPLY, rseqid := seq, exnKind := 0,
    exnMsg := "", resultVals := [PyVal.int 1] }

/-- `n` consecutive successful `ping` calls on one connection: before
each call the peer queues the correctly-tagged reply, then the call is
executed. -/
def runCalls : Nat → ThriftConnection → ThriftConnection
  | 0, conn => conn
  | n + 1, conn =>
    runCalls n
      (ThriftConnection.execute demoService
        { conn with inbox := [okResponse (conn.seqid + 1)] } "ping" [] []
        ⟨false⟩).1

/-- One successful `ping` call leaves the connection open, bumps the
sequence counter by exactly one, and appends exactly one frame tagged
with the new counter value. -/
theorem execute_ping_step (conn : ThriftConnection) (h : conn.closed = false) :
    (ThriftConnection.execute demoService
        { conn with inbox := [okResponse (conn.seqid + 1)] } "ping" [] []
        ⟨false⟩).1.closed = false ∧
    (ThriftConnection.execute demoService
        { conn with inbox := [okResponse (conn.seqid + 1)] } "ping" [] []
        ⟨false⟩).1.seqid = conn.seqid + 1 ∧
    (ThriftConnection.execute demoService
        { conn with inbox := [okResponse (conn.seqid + 1)] } "ping" [] []
        ⟨false⟩).1.sent.map Frame.seqid =
      conn.sent.map Frame.seqid ++ [conn.seqid + 1] := by
  simp [ThriftConnection.execute, ThriftConnection.recv, Service.find?,
    demoService, demoSchema, okResponse, resolveResult, resolveAfterSuccess,
    decodeResult, dictGet?, args2kwargs, dictUpdate, buildArgStruct,
    List.find?, h, TMessageType.REPLY, TMessageType.EXCEPTION,
    TMessageType.CALL]

/-- Across `n` consecutive successful calls the connection stays open,
the counter advances by exactly `n`, and the frames' sequence ids extend
the log by `counter+1, ..., counter+n`. -/
theorem runCalls_spec (n : Nat) (conn : ThriftConnection)
    (h : conn.closed = false) :
    (runCalls n conn).closed = false ∧
    (runCalls n conn).seqid = conn.seqid + n ∧
    (runCalls n conn).sent.map Frame.seqid =
      conn.sent.map Frame.seqid ++ List.range' (conn.seqid + 1) n := by
  induction n generalizing conn with
  | zero => simp [runCalls, h]
  | succ n ih =>
    obtain ⟨h1, h2, h3⟩ := execute_ping_step conn h
    obtain ⟨ih1, ih2, ih3⟩ :=
      ih (ThriftConnection.execute demoService
        { conn with inbox := [okResponse (conn.seqid + 1)] } "ping" [] []
        ⟨false⟩).1 h1
    refine ⟨ih1, ?_, ?_⟩
    · rw [show runCalls (n + 1) conn =
          runCalls n (ThriftConnection.execute demoService
            { conn with inbox := [okResponse (conn.seqid + 1)] } "ping" [] []
            ⟨false⟩).1 from rfl, ih2, h2]
      omega
    · rw [show runCalls (n + 1) conn =
          runCalls n (ThriftConnection.execute demoService
            { conn with inbox := [okResponse (conn.seqid + 1)] } "ping" [] []
            ⟨false⟩).1 from rfl, ih3, h3, h2, List.append_assoc]
      congr 1

/-- C6: the sequence counter starts at 0 at construction and is bumped
exactly once per sent call, so across `n` consecutive successful calls
on one connection the frames carry sequence ids `1, 2, ..., n` —
strictly increasing by 1, never repeating, never reset — and the counter
ends at `n`. -/
theorem C6_monotonic_sequence_ids (n : Nat) :
    (ThriftConnection.start Option.none []).seqid = 0 ∧
    (runCalls n (ThriftConnection.start Option.none [])).seqid = n ∧
    (runCalls n (ThriftConnection.start Option.none [])).sent.map Frame.seqid =
      List.range' 1 n := by
  obtain ⟨h1, h2, h3⟩ := runCalls_spec n (ThriftConnection.start Option.none []) rfl
  refine ⟨rfl, ?_, ?_⟩
  · simpa [ThriftConnection.start] using h2
  · simpa [ThriftConnection.start] using h3
